import Mathlib

/-!
Verification of the capture-and-analyze controller of the SamsaraDemoApp
repository against its natural-language specification.

The definitions below are a shallow embedding of the JavaScript screens:

* `uploadVideoAndGetBpm`, `startMeasurement`, `resetForNewMeasurement` and the
  render functions embed the main pulse screen (`src/unnamed/part_004`,
  "PulseScanScreen" with manual stop, progress reporting and
  `enableTorch={isRecording}`).
* `legacyUpload` and `legacyRenderTorch` embed the pulse screen variant in
  `src/screens/PulseScanScreen.js` (fetch-based upload, `enableTorch={true}`).
* `startPPGScanTimeout`, `calculateBpm` and `saveBpm` embed the abandoned
  local-heuristic variant (first half of `src/unnamed/part_005`).
* `pulseBMeasureAgain` embeds the "Measure Again" handler of the
  `maxDuration`-based variant (second half of `src/unnamed/part_005`).
* `sendMessage` and `chatRequest` embed `src/screens/AyurvedaBotScreen.js`.
* `saveResult` embeds the bounded scan history of
  `src/screens/BarcodeScannerNative.js`.
* `parseGrams` and `computeTotals` embed the nutrient totals of
  `src/unnamed/part_002` (FoodScannerScreen).

JavaScript numbers are modelled as exact rationals (`ℚ`) where the code
only ever handles values far inside the double range; in the nutrient
pipeline, where overflow is observable, they are modelled by `JsNum`
(`NaN`, a signed infinity, or a finite value idealized as an exact
rational, with saturation to infinity at the double boundary). JSON bodies
are modelled by the `Json` type below, with JSON parsing of the raw
response body treated as an external collaborator (a response body is
either `parsed` JSON or `malformed` raw text).
-/

/-- JSON values as seen by the screens. Numbers are exact rationals
(`NaN`/`Infinity` cannot occur in parsed JSON). Field order in objects is
preserved, as in JavaScript. -/
inductive Json where
  | null
  | bool (b : Bool)
  | num (q : ℚ)
  | str (s : String)
  | obj (fields : List (String × Json))

/-- Property access `data.k` on a JSON value: the first binding of `k` in an
object, `none` (JS `undefined`) otherwise. -/
def Json.get : Json → String → Option Json
  | .obj fields, k => go fields k
  | _, _ => none
where
  go : List (String × Json) → String → Option Json
  | [], _ => none
  | (k₀, v) :: rest, k => if k₀ = k then some v else go rest k

/-- JavaScript truthiness of a defined JSON value (`undefined` is handled via
`Option` at use sites). -/
def Json.truthy : Json → Bool
  | .null => false
  | .bool b => b
  | .num q => if q = 0 then false else true
  | .str s => if s = "" then false else true
  | .obj _ => true

/-- Rendering of an integer as JavaScript does. -/
def intToText (i : ℤ) : String :=
  if i < 0 then "-" ++ toString i.natAbs else toString i.natAbs

/-- JavaScript number-to-string conversion, exact on integers; every number
this app interpolates into text is an integer BPM value. A non-integral
rational is shown as a fraction, a case no screen of this repository
reaches. -/
def ratToText (q : ℚ) : String :=
  if q.den = 1 then intToText q.num
  else intToText q.num ++ "/" ++ toString q.den

/-- String interpolation of a JSON value, as in template literals and
`Error(x).message`. -/
def Json.toText : Json → String
  | .null => "null"
  | .bool b => if b then "true" else "false"
  | .num q => ratToText q
  | .str s => s
  | .obj _ => "[object Object]"

/-- The JS value stored by a state setter: distinguishes `undefined` from
`null` (e.g. `setBpm(data.bpm)` with a missing field stores `undefined`,
and `undefined !== null`). -/
inductive JsVal where
  | undef
  | null
  | val (j : Json)

/-- Wrap an optional JSON field access as a JS value (`none` = `undefined`). -/
def jsOfOption : Option Json → JsVal
  | none => .undef
  | some j => .val j

/-- Text a JS value renders as inside JSX (React renders `undefined` and
`null` as nothing). -/
def JsVal.toText : JsVal → String
  | .undef => ""
  | .null => ""
  | .val j => j.toText

/-- Does `pat` stand at the head of `hay`? (helper for substring search). -/
def leadsWith : List Char → List Char → Bool
  | [], _ => true
  | _ :: _, [] => false
  | a :: as, b :: bs => a = b && leadsWith as bs

/-- Does `pat` occur somewhere inside `hay`? (JS `String.prototype.includes`). -/
def occursIn (pat : List Char) : List Char → Bool
  | [] => pat.isEmpty
  | c :: rest => leadsWith pat (c :: rest) || occursIn pat rest

/-- JS `hay.includes(pat)`. -/
def strOccursIn (pat hay : String) : Bool :=
  occursIn pat.data hay.data

/-- JS `a || b` over two optional field values: the first truthy one. -/
def firstTruthy (a b : Option Json) : Option Json :=
  match a with
  | some v => if v.truthy then some v else
      match b with
      | some w => if w.truthy then some w else none
      | none => none
  | none =>
      match b with
      | some w => if w.truthy then some w else none
      | none => none

/-- A network request as constructed by the screens: target URL, HTTP method,
whether the body is `multipart/form-data`, the multipart field name, the file
name and MIME type attached to the file part (when the code sets them), and
the explicit timeout the code installs on the call (when it installs one). -/
structure NetRequest where
  url : String
  method : String
  multipart : Bool
  fieldName : Option String
  fileName : Option String
  partMime : Option String
  timeoutMs : Option Nat

/-- Body of an HTTP response as handed to the JSON parser: `raw` is the
response text, and `errText` the message of the exception the parser raises
when the text is not JSON. -/
inductive RespBody where
  | malformed (raw : String) (errText : String)
  | parsed (data : Json)

/-- An HTTP response: status code plus body. -/
structure HttpResp where
  status : Nat
  body : RespBody

/-- An alert dialog shown to the user (`Alert.alert(title, msg)`). -/
structure AlertMsg where
  title : String
  msg : String

/-- The backend endpoint of the pulse screens. -/
def analyzeUrl : String := "https://hrmppgbackend.onrender.com/analyze_ppg_video"

/-- The backend endpoint of the chat screen. -/
def chatUrl : String := "https://ayurveda-bot-backend.onrender.com/chat"

/-- Round a non-negative rational as JS `toFixed` does (nearest, ties up). -/
def fixedRound (q : ℚ) : Nat :=
  (Int.floor (q + 1/2)).toNat

/-- JS `x.toFixed(0)` (exact-rational semantics). -/
def toFixed0 (q : ℚ) : String :=
  if q < 0 then "-" ++ toString (fixedRound (-q)) else toString (fixedRound q)

/-- The fixed-notation regime of JS `x.toFixed(2)`, used for magnitudes
below `10 ^ 21` (see `jsToFixed2`): integer part, a dot, and exactly two
fractional digits (exact-rational semantics). -/
def toFixed2 (q : ℚ) : String :=
  if q < 0 then "-" ++ toFixed2Pos (-q) else toFixed2Pos q
where
  toFixed2Pos (q : ℚ) : String :=
    let n := fixedRound (q * 100)
    toString (n / 100) ++ "." ++
      String.mk [Nat.digitChar (n / 10 % 10), Nat.digitChar (n % 10)]

/-- State of the main pulse screen (`src/unnamed/part_004`): the `useState`
hooks of `PulseScanScreen`. -/
structure ScanState where
  isRecording : Bool
  isProcessing : Bool
  bpm : Option Json
  error : Option String
  uploadProgress : String
  showCamera : Bool

/-- The state at initial mount of the main pulse screen. -/
def initialScanState : ScanState :=
  { isRecording := false, isProcessing := false, bpm := none,
    error := none, uploadProgress := "", showCamera := true }

/-- Result of running a handler of the main pulse screen: the final state,
the network requests issued, the alerts shown, the persistent-storage keys
written, and the trace of upload-progress messages set along the way. -/
structure StepResult where
  state : ScanState
  requests : List NetRequest
  alerts : List AlertMsg
  writes : List String
  progress : List String

/-- The request `FileSystem.uploadAsync(API_URL, uri, {fieldName: 'file',
httpMethod: 'POST', uploadType: MULTIPART, ...})` constructs: note that the
options set no file name, no MIME type, and no timeout. -/
def pulseUploadRequest : NetRequest :=
  { url := analyzeUrl, method := "POST", multipart := true,
    fieldName := some "file", fileName := none, partMime := none,
    timeoutMs := none }

/-- The first progress message of the upload, chosen from the file size
(`fileSizeMB = fileInfo.size / 1024 / 1024`). -/
def uploadProgressStart (fileSizeBytes : Nat) : String :=
  let sizeMB : ℚ := (fileSizeBytes : ℚ) / 1048576
  if 50 < sizeMB then
    "Uploading large file (" ++ toFixed0 sizeMB ++ "MB)... This may take a while"
  else
    "Uploading video..."

/-- The error message thrown on a non-200 status:
`data.detail || data.message || "Server error: <status>"`. -/
def serverErrMsg (data : Json) (status : Nat) : String :=
  match firstTruthy (data.get "detail") (data.get "message") with
  | some v => v.toText
  | none => "Server error: " ++ toString status

/-- The try-block of `uploadVideoAndGetBpm` in `src/unnamed/part_004`, as a
fallible computation: verify the file exists, upload, parse the body, check
the status, then require a truthy `bpm` field; `.ok` carries the value the
code passes to `setBpm`. -/
def uploadOutcome (fileExists : Bool) (resp : HttpResp) : Except String Json :=
  if fileExists = false then .error "Video file not found"
  else
    match resp.body with
    | .malformed raw _ =>
        .error ("Server returned invalid response: " ++ raw.take 100)
    | .parsed data =>
        if resp.status ≠ 200 then .error (serverErrMsg data resp.status)
        else
          match data.get "bpm" with
          | some v =>
              if v.truthy then .ok v else .error "No BPM data in response"
          | none => .error "No BPM data in response"

/-- `uploadVideoAndGetBpm` of `src/unnamed/part_004`: clears `error` and
`bpm`, runs the fallible upload, and either stores the result and shows the
success alert, or stores the error message and shows the error alert. The
network request is issued exactly when the file-existence check passed, and
no persistent-storage key is ever written by this screen. -/
def uploadVideoAndGetBpm (s : ScanState) (fileExists : Bool)
    (fileSizeBytes : Nat) (resp : HttpResp) : StepResult :=
  let s0 := { s with error := none, bpm := none }
  let reqs := if fileExists then [pulseUploadRequest] else []
  let prog :=
    if fileExists then [uploadProgressStart fileSizeBytes, "Analyzing heart rate..."]
    else []
  match uploadOutcome fileExists resp with
  | .ok v =>
      { state := { s0 with bpm := some v, uploadProgress := "", isProcessing := false },
        requests := reqs,
        alerts := [⟨"Success!", "Your heart rate is " ++ v.toText ++ " BPM"⟩],
        writes := [],
        progress := prog ++ [""] }
  | .error msg =>
      let m := if msg = "" then "Something went wrong" else msg
      { state := { s0 with error := some m, uploadProgress := "", isProcessing := false },
        requests := reqs,
        alerts := [⟨"Error", m⟩],
        writes := [],
        progress := prog ++ [""] }

/-- How `recordAsync` finished: it resolved (with or without a usable
`video.uri`), or it threw with the given message. A resolve corresponds to
the user pressing "Stop Recording" (`stopMeasurement` calls
`cameraRef.current.stopRecording()`), since this variant records without a
`maxDuration`. -/
inductive RecordOutcome where
  | resolved (uri : Option String)
  | threw (msg : String)

/-- Is a recording error suppressed by the catch block of `startMeasurement`?
It shows the error only when `err?.message` is truthy, differs from
`"Aborted"`, and contains neither `"stopRecording"` nor
`"Recording already stopped"`. -/
def errSuppressed (msg : String) : Bool :=
  msg = "" || msg = "Aborted" || strOccursIn "stopRecording" msg ||
    strOccursIn "Recording already stopped" msg

/-- The state right after the setters at the top of `startMeasurement`:
recording has begun, previous results are cleared, the camera is shown. -/
def recordingStateOf (s : ScanState) : ScanState :=
  { s with isRecording := true, error := none, bpm := none,
           uploadProgress := "", showCamera := true }

/-- The catch block of `startMeasurement`: benign abort messages are ignored,
a genuine failure is stored and alerted. -/
def recordCatch (s : ScanState) (msg : String) : StepResult :=
  if errSuppressed msg then
    { state := s, requests := [], alerts := [], writes := [], progress := [] }
  else
    { state := { s with error := some msg, isProcessing := false, showCamera := true },
      requests := [], alerts := [⟨"Error", msg⟩], writes := [], progress := [] }

/-- `startMeasurement` of `src/unnamed/part_004`, as a big-step function over
the outcome of the recording and, when a video is produced, of the upload.
A missing camera ref alerts and returns; a start while already recording is
dropped; otherwise the recording runs and every path ends in the `finally`
block that clears `isRecording`. -/
def startMeasurement (s : ScanState) (cameraReady : Bool)
    (outcome : RecordOutcome) (fileExists : Bool) (fileSizeBytes : Nat)
    (resp : HttpResp) : StepResult :=
  if cameraReady = false then
    { state := s, requests := [], alerts := [⟨"Error", "Camera not ready yet"⟩],
      writes := [], progress := [] }
  else if s.isRecording then
    { state := s, requests := [], alerts := [], writes := [], progress := [] }
  else
    let s1 := recordingStateOf s
    let r :=
      match outcome with
      | .resolved (some _uri) =>
          let s2 := { s1 with showCamera := false, isProcessing := true,
                              uploadProgress := "Processing video..." }
          let u := uploadVideoAndGetBpm s2 fileExists fileSizeBytes resp
          { u with progress := ["", "Processing video..."] ++ u.progress }
      | .resolved none => recordCatch s1 "No video captured"
      | .threw msg => recordCatch s1 msg
    { r with state := { r.state with isRecording := false } }

/-- `resetForNewMeasurement` of `src/unnamed/part_004` ("Measure Again" /
"Try Again"). -/
def resetForNewMeasurement (s : ScanState) : ScanState :=
  { s with bpm := none, error := none, uploadProgress := "",
           isProcessing := false, showCamera := true }

/-- Whether the torch is lit, from the JSX of `src/unnamed/part_004`: the
`CameraView` is mounted only while `showCamera`, with
`enableTorch={isRecording}`. -/
def renderTorch (s : ScanState) : Bool :=
  if s.showCamera then s.isRecording else false

/-- The result text of the main pulse screen, from its JSX: the card shows
the recording UI while recording, the progress UI while processing, and
`"<bpm> BPM"` when a result is present. -/
def renderResultText (s : ScanState) : Option String :=
  if s.isRecording then none
  else if s.isProcessing then none
  else
    match s.bpm with
    | some v => some (v.toText ++ " BPM")
    | none => none

/-- State of the legacy pulse screen (`src/screens/PulseScanScreen.js`, the
variant wired into `App.js`): hooks `isRecording`, `bpm`, `error`. `bpm`
starts as `null` and is set to `data.bpm`, which can be `undefined`. -/
structure LegacyState where
  isRecording : Bool
  bpm : JsVal
  error : Option String

/-- The legacy screen at initial mount. -/
def legacyInitState : LegacyState :=
  { isRecording := false, bpm := .null, error := none }

/-- Whether the torch is lit on the legacy screen, from its JSX: the
`CameraView` carries `enableTorch={true}` ("torch on while
previewing/recording"), so the torch is on whenever the camera screen is
mounted, recording or not. -/
def legacyRenderTorch (_s : LegacyState) : Bool :=
  true

/-- The file name the legacy upload gives the part:
`uri.split("/").pop() || "ppg_video.mp4"`. -/
def legacyFileName (uri : String) : String :=
  match (uri.splitOn "/").getLast? with
  | some s => if s = "" then "ppg_video.mp4" else s
  | none => "ppg_video.mp4"

/-- The request the legacy upload constructs: `FormData` with
`append("file", {uri, name, type: "video/mp4"})`, sent by
`fetch(API_URL, {method: "POST", ...})` with no timeout. -/
def legacyUploadRequest (uri : String) : NetRequest :=
  { url := analyzeUrl, method := "POST", multipart := true,
    fieldName := some "file", fileName := some (legacyFileName uri),
    partMime := some "video/mp4", timeoutMs := none }

/-- `uploadVideoAndGetBpm` of the legacy screen: no file check, fetch the
fixed endpoint, throw `data.detail || "Server error while analyzing video"`
on a non-ok status, and otherwise store `data.bpm` directly — there is no
check that the field is present. Returns the new state, the requests issued
and the alerts shown. -/
def legacyUpload (s : LegacyState) (uri : String) (resp : HttpResp) :
    LegacyState × List NetRequest × List AlertMsg :=
  let s0 : LegacyState := { s with error := none, bpm := .null }
  let req := legacyUploadRequest uri
  match resp.body with
  | .malformed _ errText =>
      let m := if errText = "" then "Something went wrong" else errText
      ({ s0 with error := some m }, [req], [⟨"Error", m⟩])
  | .parsed data =>
      if 200 ≤ resp.status ∧ resp.status < 300 then
        ({ s0 with bpm := jsOfOption (data.get "bpm") }, [req], [])
      else
        let m0 :=
          match firstTruthy (data.get "detail") none with
          | some v => v.toText
          | none => "Server error while analyzing video"
        let m := if m0 = "" then "Something went wrong" else m0
        ({ s0 with error := some m }, [req], [⟨"Error", m⟩])

/-- The result block of the legacy screen, from its JSX:
`bpm !== null && !isRecording` shows `"<bpm> BPM"` — with `bpm` equal to
`undefined` this still shows, rendering the interpolation as nothing. -/
def legacyRenderResult (s : LegacyState) : Option String :=
  match s.bpm, s.isRecording with
  | .null, _ => none
  | _, true => none
  | v, false => some (v.toText ++ " BPM")

/-- `calculateBpm` of the abandoned local variant (first half of
`src/unnamed/part_005`): count strict local maxima above 200 in the sampled
values. -/
def countPeaks : List ℚ → Nat
  | a :: b :: c :: rest =>
      (if a < b ∧ c < b ∧ 200 < b then 1 else 0) + countPeaks (b :: c :: rest)
  | _ => 0

/-- `calculateBpm`: `Math.floor((peaks / 20) * 60)` (which is `peaks * 3`),
with the out-of-range fallback to 70. -/
def calculateBpm (values : List ℚ) : Nat :=
  let bpm := countPeaks values * 3
  if bpm < 30 ∨ 180 < bpm then 70 else bpm

/-- Heart-rate history of the abandoned local variant: a JS object mapping a
date string to the array of readings of that day, in key-insertion order. -/
def HrHistory : Type := List (String × List ℚ)

/-- Lookup of a date key in the history object. -/
def histLookup : List (String × List ℚ) → String → Option (List ℚ)
  | [], _ => none
  | (k, arr) :: rest, d => if k = d then some arr else histLookup rest d

/-- `saveBpm` of the abandoned local variant: copy the history, create
today's array when the key is absent, and `push` the new reading onto it;
the result is then persisted under the `heartRateHistory` key. -/
def saveBpm : List (String × List ℚ) → String → ℚ → List (String × List ℚ)
  | [], today, v => [(today, [v])]
  | (k, arr) :: rest, today, v =>
      if k = today then (k, arr ++ [v]) :: rest
      else (k, arr) :: saveBpm rest today v

/-- The latest reading stored for a date: `dayData[dayData.length - 1]`, as
the chart of the same screen reads it. -/
def latestEntry (h : List (String × List ℚ)) (d : String) : Option ℚ :=
  (histLookup h d).bind List.getLast?

/-- State of the abandoned local variant relevant to the scan: whether it is
scanning, whether the device torch is lit (`setTorchModeAsync`), the result,
and the history object. -/
structure PpgAState where
  scanning : Bool
  torchOn : Bool
  bpm : Option ℚ
  history : List (String × List ℚ)

/-- The start of `startPPGScan`: begin scanning and switch the torch on. -/
def startPPGScanBegin (s : PpgAState) (cameraReady : Bool) : PpgAState :=
  if cameraReady = false then s
  else { s with scanning := true, torchOn := true }

/-- The 20-second branch of the `startPPGScan` interval: clear the interval,
switch the torch off, compute the heart rate from the sampled values, save
it under today's date, and stop scanning. -/
def startPPGScanTimeout (s : PpgAState) (values : List ℚ) (today : String) :
    PpgAState :=
  let b : ℚ := (calculateBpm values : ℚ)
  { s with torchOn := false, bpm := some b,
           history := saveBpm s.history today b, scanning := false }

/-- State of the `maxDuration`-based pulse variant (second half of
`src/unnamed/part_005`). -/
structure PulseBState where
  isRecording : Bool
  isUploading : Bool
  bpm : JsVal
  error : Option String

/-- The `maxDuration`-based variant at initial mount. -/
def pulseBInit : PulseBState :=
  { isRecording := false, isUploading := false, bpm := .null, error := none }

/-- The "Measure Again" handler of the `maxDuration`-based variant:
`setBpm(null); setError(null)`. -/
def pulseBMeasureAgain (s : PulseBState) : PulseBState :=
  { s with bpm := .null, error := none }

/-- `saveResult` of `src/screens/BarcodeScannerNative.js`: the new scan
history array `[item, ...savedFoods].slice(0, 50)`, persisted under the
`SAVED_BARCODES` key. -/
def saveResult (item : Json) (savedFoods : List Json) : List Json :=
  (item :: savedFoods).take 50

/-- Leading-whitespace removal (helper for `jsTrim`). -/
def dropLeadWhitespace : List Char → List Char
  | [] => []
  | c :: rest => if c.isWhitespace then dropLeadWhitespace rest else c :: rest

/-- JS `input.trim()`: strip whitespace from both ends. -/
def jsTrim (s : String) : String :=
  String.mk (dropLeadWhitespace (dropLeadWhitespace s.data.reverse).reverse)

/-- State of the chat screen (`src/screens/AyurvedaBotScreen.js`): the input
field, the message list as (role, content) pairs, and the loading flag. -/
structure ChatState where
  input : String
  messages : List (String × String)
  loading : Bool

/-- How the chat fetch finished: the 50-second abort timer fired, or a
response arrived. -/
inductive ChatOutcome where
  | aborted
  | got (resp : HttpResp)

/-- The request `sendMessage` constructs: a JSON `POST` to the chat endpoint
whose `AbortController` is scheduled to abort after 50000 ms. -/
def chatRequest : NetRequest :=
  { url := chatUrl, method := "POST", multipart := false,
    fieldName := none, fileName := none, partMime := none,
    timeoutMs := some 50000 }

/-- The assistant message appended when the fetch aborts, fails, or returns
a non-ok status or non-JSON body. -/
def chatFailureText : String := "⚠️ Failed to connect to the bot."

/-- `sendMessage` of the chat screen: drop blank input or a send while
loading; otherwise append the user message, issue the request, and append
the assistant reply (or the no-reply / failure notice); `finally` clears
`loading`. -/
def sendMessage (s : ChatState) (outcome : ChatOutcome) :
    ChatState × List NetRequest :=
  if jsTrim s.input = "" ∨ s.loading then (s, [])
  else
    let upd := s.messages ++ [("user", s.input)]
    let reply : String :=
      match outcome with
      | .aborted => chatFailureText
      | .got resp =>
          if ¬(200 ≤ resp.status ∧ resp.status < 300) then chatFailureText
          else
            match resp.body with
            | .malformed _ _ => chatFailureText
            | .parsed data =>
                match data.get "reply" with
                | some v =>
                    if v.truthy then v.toText else "⚠️ No reply from server."
                | none => "⚠️ No reply from server."
    ({ input := "", messages := upd ++ [("assistant", reply)], loading := false },
     [chatRequest])

/-- A nutrient field of a food item in the backend response: absent
(`undefined`), a string, or a number. A JSON number arrives as the decimal
literal `mantissa × 10⁻ˢᶜᵃˡᵉ`. -/
inductive FieldVal where
  | absent
  | strVal (s : String)
  | numVal (mantissa : ℤ) (scale : Nat)

/-- The regex replace of `parseGrams`: keep only digits, dots and minus
signs (`String(str).replace(/[^\d.-]/g, "")`). -/
def cleanChars (cs : List Char) : List Char :=
  cs.filter fun c => c.isDigit || c = '.' || c = '-'

/-- Leading digits of a character list, and the remainder. -/
def takeDigits : List Char → List Char × List Char
  | [] => ([], [])
  | c :: rest =>
      if c.isDigit then
        let (ds, r) := takeDigits rest
        (c :: ds, r)
      else ([], c :: rest)

/-- Numeric value of a digit list. -/
def digitsToNat : List Char → Nat :=
  List.foldl (fun acc c => acc * 10 + (c.toNat - '0'.toNat)) 0

/-- JS `parseFloat` on a cleaned character list (only digits, dots, minus
signs can occur): an optional leading minus sign, then the longest
`digits [. digits]` head; `none` is `NaN`. Trailing junk is ignored, and at
least one digit must be read. -/
def parseFloatClean (cs : List Char) : Option ℚ :=
  match cs with
  | '-' :: rest => (parseAbs rest).map Neg.neg
  | _ => parseAbs cs
where
  parseAbs (cs : List Char) : Option ℚ :=
    let (ip, rest) := takeDigits cs
    match rest with
    | '.' :: rest₂ =>
        let (fp, _) := takeDigits rest₂
        if ip = [] ∧ fp = [] then none
        else some ((digitsToNat ip : ℚ) + (digitsToNat fp : ℚ) / 10 ^ fp.length)
    | _ => if ip = [] then none else some (digitsToNat ip)

/-- Left-pad a digit string with zeros to the given width. -/
def padZeros (k : Nat) (s : String) : String :=
  String.mk (List.replicate (k - s.data.length) '0' ++ s.data)

/-- The decimal rendering of a JSON number literal, as `String(str)` sees
it: the fractional part is zero-padded to the scale, so the literal with
mantissa 105 and scale 2 renders as "1.05". -/
def numLitText (mantissa : ℤ) (scale : Nat) : String :=
  (if mantissa < 0 then "-" else "") ++
    (if scale = 0 then toString mantissa.natAbs
     else toString (mantissa.natAbs / 10 ^ scale) ++ "." ++
       padZeros scale (toString (mantissa.natAbs % 10 ^ scale)))

/-- A JavaScript number: `NaN`, a signed infinity, or a finite double.
A finite value is idealized as the exact rational its decimal literal
denotes (mantissa rounding is not modelled; no property below depends on
it), but the overflow to infinity at the boundary of the double range is
modelled, since `computeTotals` is observably sensitive to it. -/
inductive JsNum where
  | nan
  | inf (negative : Bool)
  | fin (q : ℚ)

/-- The smallest magnitude at which a real value rounds to an IEEE double
infinity: the midpoint between the largest finite double and `2 ^ 1024`. -/
def dblOverflow : ℚ := 2 ^ 1024 - 2 ^ 970

/-- A real value as a JavaScript number: saturates to a signed infinity
beyond the double range. -/
def jsNumOfRat (q : ℚ) : JsNum :=
  if dblOverflow ≤ q then .inf false
  else if q ≤ -dblOverflow then .inf true
  else .fin q

/-- `parseGrams` of the food scanner: falsy non-zero-number inputs return 0
early (`if (!str && str !== 0) return 0`), otherwise the stringified input
is cleaned and parsed — saturating to infinity beyond the double range —
and a `NaN` parse falls back to 0 (`isNaN(n) ? 0 : n`; an infinity is not
NaN and passes through the check). -/
def parseGrams (v : FieldVal) : JsNum :=
  match v with
  | .absent => .fin 0
  | .strVal s =>
      if s = "" then .fin 0
      else
        match parseFloatClean (cleanChars s.data) with
        | none => .fin 0
        | some q => jsNumOfRat q
  | .numVal m e =>
      match parseFloatClean (cleanChars (numLitText m e).data) with
      | none => .fin 0
      | some q => jsNumOfRat q

/-- A food item of the backend response, restricted to the nutrient fields
`computeTotals` reads. -/
structure Food where
  carbs : FieldVal
  fat : FieldVal
  fiber : FieldVal
  protein : FieldVal

/-- JS `+=` on numbers: `NaN` is absorbing, opposite infinities give `NaN`,
and a finite sum saturates to infinity beyond the double range. -/
def jsAdd : JsNum → JsNum → JsNum
  | .nan, _ => .nan
  | _, .nan => .nan
  | .inf b₁, .inf b₂ => if b₁ = b₂ then .inf b₁ else .nan
  | .inf b, .fin _ => .inf b
  | .fin _, .inf b => .inf b
  | .fin a, .fin b => jsNumOfRat (a + b)

/-- The running totals record of `computeTotals`. -/
structure RawTotals where
  carbs : JsNum
  fat : JsNum
  fiber : JsNum
  protein : JsNum

/-- One iteration of the `forEach` loop of `computeTotals`: add the parsed
nutrient fields of one food to the running totals. -/
def addFood (t : RawTotals) (f : Food) : RawTotals :=
  { carbs := jsAdd t.carbs (parseGrams f.carbs),
    fat := jsAdd t.fat (parseGrams f.fat),
    fiber := jsAdd t.fiber (parseGrams f.fiber),
    protein := jsAdd t.protein (parseGrams f.protein) }

/-- The accumulation loop of `computeTotals`: start from zero totals and add
`parseGrams` of each field of each food. -/
def accumTotals (foods : List Food) : RawTotals :=
  foods.foldl addFood
    { carbs := .fin 0, fat := .fin 0, fiber := .fin 0, protein := .fin 0 }

/-- Trailing zeros of a digit list removed. -/
def stripTrailZeros (ds : List Char) : List Char :=
  (ds.reverse.dropWhile (· = '0')).reverse

/-- Exponential notation of a positive integer, as JS `ToString` renders a
double of magnitude at least `10 ^ 21`: the significant digits with
trailing zeros stripped, a dot after the first when more than one remains,
and the `e+<exponent>` suffix. -/
def expNotation (n : Nat) : String :=
  let ds := (toString n).data
  match stripTrailZeros ds with
  | [] => "0"
  | [d] => String.mk [d] ++ "e+" ++ toString (ds.length - 1)
  | d :: rest => String.mk [d] ++ "." ++ String.mk rest ++ "e+" ++
      toString (ds.length - 1)

/-- JS `ToString` of a finite double of magnitude at least `10 ^ 21` (such
doubles are integers; under the exact-rational idealization the significant
digits are those of the floor). -/
def jsExpToString (q : ℚ) : String :=
  (if q < 0 then "-" else "") ++ expNotation (Int.floor |q|).toNat

/-- JS `Number.prototype.toFixed(2)`: "NaN" for `NaN`, "Infinity" for the
infinities, plain `ToString` (exponential notation) from magnitude
`10 ^ 21` upward, and fixed two-decimal notation (`toFixed2`) below it. -/
def jsToFixed2 : JsNum → String
  | .nan => "NaN"
  | .inf negative => if negative then "-" ++ "Infinity" else "Infinity"
  | .fin q => if 10 ^ 21 ≤ |q| then jsExpToString q else toFixed2 q

/-- The `fmt` helper of `computeTotals`:
`` `${Number(n).toFixed(2)}g` ``. -/
def fmtGrams (x : JsNum) : String :=
  jsToFixed2 x ++ "g"

/-- The formatted totals `computeTotals` returns. -/
structure TotalsOut where
  carbs : String
  fat : String
  fiber : String
  protein : String

/-- `computeTotals` of the food scanner: accumulate and format. -/
def computeTotals (foods : List Food) : TotalsOut :=
  let t := accumTotals foods
  { carbs := fmtGrams t.carbs, fat := fmtGrams t.fat,
    fiber := fmtGrams t.fiber, protein := fmtGrams t.protein }

/-- The shape the specification asks of a formatted total: some prefix, a
dot, exactly two digits, and the `g` suffix. -/
def gramFormatted (s : String) : Prop :=
  ∃ pre d₁ d₂, s = pre ++ "." ++ String.mk [d₁, d₂] ++ "g" ∧
    d₁.isDigit = true ∧ d₂.isDigit = true

/-- A 22-digit nutrient string whose value is exactly `10 ^ 21`, the
smallest magnitude at which `toFixed(2)` abandons fixed notation. -/
def overTenPow21 : String := "1000000000000000000000"

/-- A 310-digit nutrient string whose value `10 ^ 309` lies beyond the
double range, so `parseFloat` returns `Infinity`. -/
def overDblMax : String := "1000000000000000000000000000000000000000000000000000000000000000000000000000000000000000000000000000000000000000000000000000000000000000000000000000000000000000000000000000000000000000000000000000000000000000000000000000000000000000000000000000000000000000000000000000000000000000000000000000000000000000000000"

/-- The same overflowing magnitude with a leading minus sign. -/
def overDblMaxNeg : String := "-1000000000000000000000000000000000000000000000000000000000000000000000000000000000000000000000000000000000000000000000000000000000000000000000000000000000000000000000000000000000000000000000000000000000000000000000000000000000000000000000000000000000000000000000000000000000000000000000000000000000000000000000"

theorem renderTorch_of_not_recording (s : ScanState) (h : s.isRecording = false) :
    renderTorch s = false := by
  simp [renderTorch, h]

theorem renderResultText_of_no_bpm (s : ScanState) (h : s.bpm = none) :
    renderResultText s = none := by
  simp [renderResultText, h]

theorem histLookup_saveBpm_self (h : List (String × List ℚ)) (d : String) (v : ℚ) :
    histLookup (saveBpm h d v) d = some ((histLookup h d).getD [] ++ [v]) := by
  induction h with
  | nil => simp [saveBpm, histLookup]
  | cons kv rest ih =>
      obtain ⟨k, arr⟩ := kv
      by_cases hk : k = d
      · simp [saveBpm, histLookup, hk]
      · simp [saveBpm, histLookup, hk, ih]

theorem histLookup_saveBpm_other (h : List (String × List ℚ)) (d d' : String)
    (v : ℚ) (hne : d' ≠ d) :
    histLookup (saveBpm h d v) d' = histLookup h d' := by
  induction h with
  | nil => simp [saveBpm, histLookup, Ne.symm hne]
  | cons kv rest ih =>
      obtain ⟨k, arr⟩ := kv
      by_cases hk : k = d
      · subst hk
        simp [saveBpm, histLookup, Ne.symm hne]
      · simp [saveBpm, histLookup, hk, ih]

/-- C1. The claim "the torch is on if and only if the capture session is in
Recording" fails on the repository: the pulse screen variant wired into
`App.js` (`src/screens/PulseScanScreen.js`) mounts its `CameraView` with
`enableTorch={true}`, so at initial mount the torch is already on while no
recording is in progress. -/
theorem c1_torch_iff_recording_falsified :
    legacyRenderTorch legacyInitState = true ∧
      legacyInitState.isRecording = false :=
  ⟨rfl, rfl⟩

/-- C1 (amended). In the main pulse screen the torch tracks the recording
flag: it is lit in the state entered by `startMeasurement`, it is off in any
state that is not recording, and every completed run of `startMeasurement`
(manual stop via `recordAsync` resolution, missing video, or a thrown
recording error — benign or genuine) ends with recording cleared and the
torch off; the interval-based variant likewise switches the torch off on its
20-second automatic stop. -/
theorem c1_torch_off_on_every_exit :
    (∀ s, renderTorch (recordingStateOf s) = true) ∧
    (∀ s, s.isRecording = false → renderTorch s = false) ∧
    (∀ s outcome fileExists n resp, s.isRecording = false →
        (startMeasurement s true outcome fileExists n resp).state.isRecording
            = false ∧
        renderTorch (startMeasurement s true outcome fileExists n resp).state
            = false) ∧
    (∀ s values today, (startPPGScanTimeout s values today).torchOn = false) := by
  refine ⟨?_, ?_, ?_, ?_⟩
  · intro s
    simp [renderTorch, recordingStateOf]
  · intro s h
    exact renderTorch_of_not_recording s h
  · intro s outcome fileExists n resp h
    have hrec : (startMeasurement s true outcome fileExists n resp).state.isRecording
        = false := by
      simp [startMeasurement, h]
    exact ⟨hrec, renderTorch_of_not_recording _ hrec⟩
  · intro s values today
    simp [startPPGScanTimeout]

/-- C1 witness: concrete applications of the amended theorem. -/
theorem c1_torch_off_on_every_exit_witness :
    renderTorch initialScanState = false ∧
    (startMeasurement initialScanState true (.threw "Aborted") true 0
        ⟨200, .parsed (.obj [])⟩).state.isRecording = false :=
  ⟨c1_torch_off_on_every_exit.2.1 initialScanState rfl,
   (c1_torch_off_on_every_exit.2.2.1 initialScanState (.threw "Aborted") true 0
      ⟨200, .parsed (.obj [])⟩ rfl).1⟩

/-- C3. A `start()` while the session is already recording is a no-op:
`startMeasurement` returns with the screen state unchanged and issues no
network request, whatever the camera readiness, recording outcome and
response parameters would have been. -/
theorem c3_second_start_is_noop (s : ScanState) (cameraReady : Bool)
    (outcome : RecordOutcome) (fileExists : Bool) (n : Nat) (resp : HttpResp)
    (h : s.isRecording = true) :
    (startMeasurement s cameraReady outcome fileExists n resp).state = s ∧
    (startMeasurement s cameraReady outcome fileExists n resp).requests = [] := by
  cases cameraReady <;> simp [startMeasurement, h]

/-- C3 witness: a concrete recording state is left untouched by a second
start. -/
theorem c3_second_start_is_noop_witness :
    (startMeasurement (recordingStateOf initialScanState) true
        (.resolved (some "file:///ppg.mp4")) true 1000
        ⟨200, .parsed (.obj [("bpm", .num 72)])⟩).state
      = recordingStateOf initialScanState ∧
    (startMeasurement (recordingStateOf initialScanState) true
        (.resolved (some "file:///ppg.mp4")) true 1000
        ⟨200, .parsed (.obj [("bpm", .num 72)])⟩).requests = [] :=
  c3_second_start_is_noop (recordingStateOf initialScanState) true
    (.resolved (some "file:///ppg.mp4")) true 1000
    ⟨200, .parsed (.obj [("bpm", .num 72)])⟩ rfl

/-- C7. "Measure again" restores the initial mount state: from any state with
no recording in progress (which includes both terminal states, success and
failure), `resetForNewMeasurement` yields exactly `initialScanState`; it is
idempotent, and the "Measure Again" handler of the `maxDuration`-based
variant likewise restores its initial state from any of its terminal
states. -/
theorem c7_reset_restores_initial_state :
    (∀ s, s.isRecording = false → resetForNewMeasurement s = initialScanState) ∧
    (∀ s, resetForNewMeasurement (resetForNewMeasurement s)
        = resetForNewMeasurement s) ∧
    (∀ t, t.isRecording = false → t.isUploading = false →
        pulseBMeasureAgain t = pulseBInit) := by
  refine ⟨?_, ?_, ?_⟩
  · intro s h
    cases s
    simp_all [resetForNewMeasurement, initialScanState]
  · intro s
    simp [resetForNewMeasurement]
  · intro t h₁ h₂
    cases t
    simp_all [pulseBMeasureAgain, pulseBInit]

/-- C7 witness: reset applied to a concrete failed terminal state and a
concrete successful terminal state of the secondary variant. -/
theorem c7_reset_restores_initial_state_witness :
    resetForNewMeasurement
        { isRecording := false, isProcessing := false, bpm := none,
          error := some "No BPM data in response", uploadProgress := "",
          showCamera := false } = initialScanState ∧
    pulseBMeasureAgain
        { isRecording := false, isUploading := false,
          bpm := .val (.num 72), error := none } = pulseBInit :=
  ⟨c7_reset_restores_initial_state.1 _ rfl,
   c7_reset_restores_initial_state.2.2 _ rfl rfl⟩

/-- C8. The barcode scan history stays bounded and most-recent-first: after
every `saveResult` the stored array is the new item followed by at most 49
prior entries, so it has at most 50 elements and the newly saved item is its
first element, for every prior history contents. -/
theorem c8_history_bounded_most_recent_first (item : Json) (prior : List Json) :
    (saveResult item prior).length ≤ 50 ∧
    (saveResult item prior).head? = some item ∧
    saveResult item prior = item :: prior.take 49 := by
  refine ⟨?_, rfl, rfl⟩
  simp [saveResult]

/-- C2. The claim fails on the repository: a successful `{"bpm": 72}`
response makes the main pulse screen render exactly "72 BPM", but the run
writes no persistent-storage key at all — no backend-driven flow appends to
the heart-rate history (the screen does not even import the storage
module). -/
theorem c2_history_append_falsified :
    renderResultText (startMeasurement initialScanState true
        (.resolved (some "file:///ppg.mp4")) true 1000
        ⟨200, .parsed (.obj [("bpm", .num 72)])⟩).state = some "72 BPM" ∧
    (startMeasurement initialScanState true
        (.resolved (some "file:///ppg.mp4")) true 1000
        ⟨200, .parsed (.obj [("bpm", .num 72)])⟩).writes = [] :=
  ⟨rfl, rfl⟩

/-- C2 (amended). On a successful `{"bpm": 72}` response the main pulse
screen stores the value and renders exactly "72 BPM", but writes nothing to
persistent storage; appending to the per-date history exists only in the
abandoned local-heuristic variant, whose `saveBpm` appends the reading as
the latest entry under the given date and leaves every other date
unchanged. -/
theorem c2_result_render_and_local_history :
    (∀ (s : ScanState) (n : Nat) (uri : String), s.isRecording = false →
        renderResultText (startMeasurement s true (.resolved (some uri)) true n
            ⟨200, .parsed (.obj [("bpm", .num 72)])⟩).state = some "72 BPM" ∧
        (startMeasurement s true (.resolved (some uri)) true n
            ⟨200, .parsed (.obj [("bpm", .num 72)])⟩).state.bpm
          = some (.num 72) ∧
        (startMeasurement s true (.resolved (some uri)) true n
            ⟨200, .parsed (.obj [("bpm", .num 72)])⟩).writes = []) ∧
    (∀ h d, latestEntry (saveBpm h d 72) d = some 72) ∧
    (∀ h d d', d' ≠ d → histLookup (saveBpm h d 72) d' = histLookup h d') := by
  refine ⟨?_, ?_, ?_⟩
  · intro s n uri h
    have houtcome : uploadOutcome true
        ⟨200, .parsed (.obj [("bpm", .num 72)])⟩ = .ok (.num 72) := rfl
    have hstate : (startMeasurement s true (.resolved (some uri)) true n
        ⟨200, .parsed (.obj [("bpm", .num 72)])⟩).state
        = { isRecording := false, isProcessing := false, bpm := some (.num 72),
            error := none, uploadProgress := "", showCamera := false } := by
      simp [startMeasurement, h, uploadVideoAndGetBpm, houtcome, recordingStateOf]
    refine ⟨?_, ?_, ?_⟩
    · rw [hstate]
      rfl
    · rw [hstate]
    · simp [startMeasurement, h, uploadVideoAndGetBpm, houtcome]
  · intro h d
    rw [latestEntry, histLookup_saveBpm_self]
    simp [List.getLast?_concat]
  · intro h d d' hne
    exact histLookup_saveBpm_other h d d' 72 hne

/-- C2 witness: concrete applications of the amended theorem. -/
theorem c2_result_render_and_local_history_witness :
    renderResultText (startMeasurement initialScanState true
        (.resolved (some "file:///clip.mp4")) true 2000
        ⟨200, .parsed (.obj [("bpm", .num 72)])⟩).state = some "72 BPM" ∧
    latestEntry (saveBpm [("2026-10-10", [65])] "2026-10-11" 72) "2026-10-11"
      = some 72 ∧
    histLookup (saveBpm [("2026-10-10", [65])] "2026-10-11" 72) "2026-10-10"
      = some [65] :=
  ⟨(c2_result_render_and_local_history.1 initialScanState 2000
      "file:///clip.mp4" rfl).1,
   c2_result_render_and_local_history.2.1 [("2026-10-10", [65])] "2026-10-11",
   by
     rw [c2_result_render_and_local_history.2.2 [("2026-10-10", [65])]
       "2026-10-11" "2026-10-10" (by decide)]
     rfl⟩

/-- C4. The claim fails on the repository: the pulse screen variant wired
into `App.js` performs no check on the `bpm` field — on an HTTP 200 response
with body `{}` its upload handler raises no error, shows no alert, stores
the undefined field as the result, and the screen displays the result block
(rendering " BPM" with an empty value) instead of a failure message. -/
theorem c4_missing_bpm_falsified :
    (legacyUpload legacyInitState "file:///ppg.mp4"
        ⟨200, .parsed (.obj [])⟩).1.error = none ∧
    (legacyUpload legacyInitState "file:///ppg.mp4"
        ⟨200, .parsed (.obj [])⟩).2.2 = [] ∧
    legacyRenderResult (legacyUpload legacyInitState "file:///ppg.mp4"
        ⟨200, .parsed (.obj [])⟩).1 = some " BPM" :=
  ⟨rfl, rfl, rfl⟩

/-- C4 (amended). In the main pulse screen the claim holds: an HTTP 200
response whose body lacks `bpm` makes `uploadVideoAndGetBpm` raise the
"No BPM data in response" error, which is stored and surfaced through the
error alert; no result value is stored and no result text is rendered. -/
theorem c4_missing_bpm_error_main_variant (s : ScanState) (n : Nat)
    (data : Json) (h : data.get "bpm" = none) :
    (uploadVideoAndGetBpm s true n ⟨200, .parsed data⟩).state.error
        = some "No BPM data in response" ∧
    (uploadVideoAndGetBpm s true n ⟨200, .parsed data⟩).state.bpm = none ∧
    (uploadVideoAndGetBpm s true n ⟨200, .parsed data⟩).alerts
        = [⟨"Error", "No BPM data in response"⟩] ∧
    renderResultText (uploadVideoAndGetBpm s true n ⟨200, .parsed data⟩).state
        = none := by
  have houtcome : uploadOutcome true ⟨200, .parsed data⟩
      = .error "No BPM data in response" := by
    simp [uploadOutcome, h]
  refine ⟨?_, ?_, ?_, ?_⟩
  · simp [uploadVideoAndGetBpm, houtcome]
  · simp [uploadVideoAndGetBpm, houtcome]
  · simp [uploadVideoAndGetBpm, houtcome]
  · exact renderResultText_of_no_bpm _ (by simp [uploadVideoAndGetBpm, houtcome])

/-- C4 witness: concrete application of the amended theorem at body `{}`. -/
theorem c4_missing_bpm_error_main_variant_witness :
    (uploadVideoAndGetBpm initialScanState true 0
        ⟨200, .parsed (.obj [])⟩).state.error
      = some "No BPM data in response" ∧
    renderResultText (uploadVideoAndGetBpm initialScanState true 0
        ⟨200, .parsed (.obj [])⟩).state = none :=
  ⟨(c4_missing_bpm_error_main_variant initialScanState 0 (.obj []) rfl).1,
   (c4_missing_bpm_error_main_variant initialScanState 0 (.obj []) rfl).2.2.2⟩

/-- C5. The claim fails on the repository: the non-emptiness check does not
exist — an existing file of size 0 bytes is still uploaded (the size is used
only to pick a progress message) — and the request the main upload
constructs carries no explicit MIME type for its file part. -/
theorem c5_empty_file_uploaded :
    (uploadVideoAndGetBpm initialScanState true 0
        ⟨200, .parsed (.obj [("bpm", .num 72)])⟩).requests
      = [pulseUploadRequest] ∧
    pulseUploadRequest.partMime = none :=
  ⟨rfl, rfl⟩

/-- C5 (amended). The main upload first verifies that the local file exists —
when it does not, no request is issued and the "Video file not found" error
is surfaced — and then POSTs a single-part multipart body with field name
`file` to the fixed analysis endpoint, with no check that the file is
non-empty and no explicit MIME type; the explicit `video/mp4` part type is
set only by the fetch-based variant, which performs no file check. -/
theorem c5_upload_request_shape :
    (∀ (s : ScanState) (n : Nat) (resp : HttpResp),
        (uploadVideoAndGetBpm s false n resp).requests = [] ∧
        (uploadVideoAndGetBpm s false n resp).state.error
          = some "Video file not found") ∧
    (∀ (s : ScanState) (n : Nat) (resp : HttpResp),
        (uploadVideoAndGetBpm s true n resp).requests = [pulseUploadRequest]) ∧
    (pulseUploadRequest.url = analyzeUrl ∧ pulseUploadRequest.method = "POST" ∧
      pulseUploadRequest.multipart = true ∧
      pulseUploadRequest.fieldName = some "file" ∧
      pulseUploadRequest.partMime = none) ∧
    (∀ uri, (legacyUploadRequest uri).url = analyzeUrl ∧
        (legacyUploadRequest uri).method = "POST" ∧
        (legacyUploadRequest uri).multipart = true ∧
        (legacyUploadRequest uri).fieldName = some "file" ∧
        (legacyUploadRequest uri).partMime = some "video/mp4") := by
  refine ⟨?_, ?_, ⟨rfl, rfl, rfl, rfl, rfl⟩, ?_⟩
  · intro s n resp
    have houtcome : uploadOutcome false resp = .error "Video file not found" := rfl
    constructor <;> simp [uploadVideoAndGetBpm, houtcome]
  · intro s n resp
    rcases houtcome : uploadOutcome true resp with v | m <;>
      simp [uploadVideoAndGetBpm, houtcome]
  · intro uri
    exact ⟨rfl, rfl, rfl, rfl, rfl⟩

/-- C6. The claim fails on the repository: the pulse controller's network
call — the request issued by `uploadVideoAndGetBpm` — installs no explicit
timeout at all. -/
theorem c6_upload_timeout_falsified :
    (uploadVideoAndGetBpm initialScanState true 5
        ⟨200, .parsed (.obj [("bpm", .num 72)])⟩).requests
      = [pulseUploadRequest] ∧
    pulseUploadRequest.timeoutMs = none :=
  ⟨rfl, rfl⟩

/-- C6 (amended). Only the chat screen's network call is bounded by an
explicit timeout: its request aborts after 50000 ms (meeting the 50-second
recommendation), and when the abort fires the handler ends with loading
cleared and the generic connection-failure message appended (there is no
distinct timeout error kind); the requests of the pulse upload paths install
no timeout. -/
theorem c6_chat_timeout_only :
    chatRequest.timeoutMs = some 50000 ∧
    (∀ s : ChatState, jsTrim s.input ≠ "" → s.loading = false →
        (sendMessage s .aborted).1.loading = false ∧
        (sendMessage s .aborted).1.messages
          = s.messages ++ [("user", s.input), ("assistant", chatFailureText)] ∧
        (sendMessage s .aborted).2 = [chatRequest]) ∧
    pulseUploadRequest.timeoutMs = none ∧
    (∀ uri, (legacyUploadRequest uri).timeoutMs = none) := by
  refine ⟨rfl, ?_, rfl, fun uri => rfl⟩
  intro s h₁ h₂
  refine ⟨?_, ?_, ?_⟩ <;> simp [sendMessage, h₁, h₂]

/-- C6 witness: concrete application of the amended theorem to a pending
message whose fetch aborts at the 50-second timeout. -/
theorem c6_chat_timeout_only_witness :
    (sendMessage { input := "hello", messages := [], loading := false }
        .aborted).1.messages
      = [("user", "hello"), ("assistant", chatFailureText)] ∧
    (sendMessage { input := "hello", messages := [], loading := false }
        .aborted).1.loading = false :=
  ⟨by
     have h := (c6_chat_timeout_only.2.1
       { input := "hello", messages := [], loading := false }
       (by decide) rfl).2.1
     simpa using h,
   (c6_chat_timeout_only.2.1
     { input := "hello", messages := [], loading := false }
     (by decide) rfl).1⟩

/-- C9. An HTTP 200 response with `bpm: 0` is handled exactly like one with
no `bpm` field, because the presence check is the truthiness test
`if (data.bpm)`: the whole step result is equal to that of the missing-field
body, the stored result stays empty, the "No BPM data in response" error is
raised, and no result text is rendered. -/
theorem c9_zero_bpm_treated_as_missing (s : ScanState) (n : Nat) :
    uploadVideoAndGetBpm s true n ⟨200, .parsed (.obj [("bpm", .num 0)])⟩
      = uploadVideoAndGetBpm s true n ⟨200, .parsed (.obj [])⟩ ∧
    (uploadVideoAndGetBpm s true n
        ⟨200, .parsed (.obj [("bpm", .num 0)])⟩).state.bpm = none ∧
    (uploadVideoAndGetBpm s true n
        ⟨200, .parsed (.obj [("bpm", .num 0)])⟩).state.error
      = some "No BPM data in response" ∧
    renderResultText (uploadVideoAndGetBpm s true n
        ⟨200, .parsed (.obj [("bpm", .num 0)])⟩).state = none := by
  have hA : uploadOutcome true ⟨200, .parsed (.obj [("bpm", .num 0)])⟩
      = .error "No BPM data in response" := rfl
  have hB : uploadOutcome true ⟨200, .parsed (.obj [])⟩
      = .error "No BPM data in response" := rfl
  refine ⟨?_, ?_, ?_, ?_⟩
  · simp [uploadVideoAndGetBpm, hA, hB]
  · simp [uploadVideoAndGetBpm, hA]
  · simp [uploadVideoAndGetBpm, hA]
  · exact renderResultText_of_no_bpm _ (by simp [uploadVideoAndGetBpm, hA])

theorem digitChar_isDigit (k : Nat) (h : k < 10) :
    (Nat.digitChar k).isDigit = true := by
  interval_cases k <;> decide


theorem toFixed2_gramFormatted (q : ℚ) : gramFormatted (toFixed2 q ++ "g") := by
  by_cases hq : q < 0
  · refine ⟨"-" ++ toString (fixedRound (-q * 100) / 100),
      Nat.digitChar (fixedRound (-q * 100) / 10 % 10),
      Nat.digitChar (fixedRound (-q * 100) % 10), ?_,
      digitChar_isDigit _ (Nat.mod_lt _ (by norm_num)),
      digitChar_isDigit _ (Nat.mod_lt _ (by norm_num))⟩
    rw [toFixed2, if_pos hq]
    show ("-" ++ (_ ++ "." ++ _)) ++ "g" = _
    simp [String.append_assoc]
  · refine ⟨toString (fixedRound (q * 100) / 100),
      Nat.digitChar (fixedRound (q * 100) / 10 % 10),
      Nat.digitChar (fixedRound (q * 100) % 10), ?_,
      digitChar_isDigit _ (Nat.mod_lt _ (by norm_num)),
      digitChar_isDigit _ (Nat.mod_lt _ (by norm_num))⟩
    rw [toFixed2, if_neg hq]
    rfl

theorem jsNumOfRat_ne_nan (q : ℚ) : jsNumOfRat q ≠ .nan := by
  unfold jsNumOfRat
  split
  · simp
  · split <;> simp

theorem parseGrams_ne_nan (v : FieldVal) : parseGrams v ≠ .nan := by
  cases v with
  | absent => simp [parseGrams]
  | strVal s =>
      by_cases hs : s = ""
      · simp [parseGrams, hs]
      · cases hp : parseFloatClean (cleanChars s.data) with
        | none => simp [parseGrams, hs, hp]
        | some q => simpa [parseGrams, hs, hp] using jsNumOfRat_ne_nan q
  | numVal m e =>
      cases hp : parseFloatClean (cleanChars (numLitText m e).data) with
      | none => simp [parseGrams, hp]
      | some q => simpa [parseGrams, hp] using jsNumOfRat_ne_nan q

theorem fmtGrams_fin_formatted (q : ℚ) (h : |q| < 10 ^ 21) :
    gramFormatted (fmtGrams (.fin q)) := by
  have hn : ¬ ((10 : ℚ) ^ 21 ≤ |q|) := not_le.mpr h
  simp only [fmtGrams, jsToFixed2]
  rw [if_neg hn]
  exact toFixed2_gramFormatted q

theorem parseGrams_overTenPow21 :
    parseGrams (.strVal overTenPow21) = .fin ((10 ^ 21 : ℕ) : ℚ) := by
  have h1 : ¬ (dblOverflow ≤ ((10 ^ 21 : ℕ) : ℚ)) := by norm_num [dblOverflow]
  have h2 : ¬ (((10 ^ 21 : ℕ) : ℚ) ≤ -dblOverflow) := by norm_num [dblOverflow]
  have h21 : digitsToNat overTenPow21.data = 10 ^ 21 := by decide
  have hpf : parseFloatClean (cleanChars overTenPow21.data)
      = some ((10 ^ 21 : ℕ) : ℚ) := by
    rw [show parseFloatClean (cleanChars overTenPow21.data)
        = some ((digitsToNat overTenPow21.data : ℕ) : ℚ) from rfl, h21]
  simp only [parseGrams]
  rw [if_neg (by decide : ¬ overTenPow21 = ""), hpf]
  show jsNumOfRat ((10 ^ 21 : ℕ) : ℚ) = _
  unfold jsNumOfRat
  rw [if_neg h1, if_neg h2]

set_option maxRecDepth 4000 in
theorem parseGrams_overDblMax : parseGrams (.strVal overDblMax) = .inf false := by
  have h1 : dblOverflow ≤ ((10 ^ 309 : ℕ) : ℚ) := by norm_num [dblOverflow]
  have hd : digitsToNat overDblMax.data = 10 ^ 309 := by decide
  have hpf : parseFloatClean (cleanChars overDblMax.data)
      = some ((10 ^ 309 : ℕ) : ℚ) := by
    rw [show parseFloatClean (cleanChars overDblMax.data)
        = some ((digitsToNat overDblMax.data : ℕ) : ℚ) from rfl, hd]
  simp only [parseGrams]
  rw [if_neg (by decide : ¬ overDblMax = ""), hpf]
  show jsNumOfRat ((10 ^ 309 : ℕ) : ℚ) = _
  unfold jsNumOfRat
  rw [if_pos h1]

set_option maxRecDepth 4000 in
theorem parseGrams_overDblMaxNeg :
    parseGrams (.strVal overDblMaxNeg) = .inf true := by
  have h1 : ¬ (dblOverflow ≤ -((10 ^ 309 : ℕ) : ℚ)) := by norm_num [dblOverflow]
  have h2 : -((10 ^ 309 : ℕ) : ℚ) ≤ -dblOverflow := by norm_num [dblOverflow]
  have hd : digitsToNat overDblMax.data = 10 ^ 309 := by decide
  have hpf : parseFloatClean (cleanChars overDblMaxNeg.data)
      = some (-((10 ^ 309 : ℕ) : ℚ)) := by
    rw [show parseFloatClean (cleanChars overDblMaxNeg.data)
        = some (-((digitsToNat overDblMax.data : ℕ) : ℚ)) from rfl, hd]
  simp only [parseGrams]
  rw [if_neg (by decide : ¬ overDblMaxNeg = ""), hpf]
  show jsNumOfRat (-((10 ^ 309 : ℕ) : ℚ)) = _
  unfold jsNumOfRat
  rw [if_neg h1, if_pos h2]

theorem jsToFixed2_tenPow21 : jsToFixed2 (.fin ((10 ^ 21 : ℕ) : ℚ)) = "1e+21" := by
  have habs : |((10 ^ 21 : ℕ) : ℚ)| = ((10 ^ 21 : ℕ) : ℚ) :=
    abs_of_nonneg (by positivity)
  have hge : (10 : ℚ) ^ 21 ≤ |((10 ^ 21 : ℕ) : ℚ)| := by
    rw [habs]; push_cast; norm_num
  simp only [jsToFixed2]
  rw [if_pos hge]
  unfold jsExpToString
  rw [if_neg (not_lt.mpr (by positivity) : ¬ ((10 ^ 21 : ℕ) : ℚ) < 0)]
  rw [habs, Int.floor_natCast]
  rw [show ((10 ^ 21 : ℕ) : ℤ).toNat = 10 ^ 21 by simp]
  rw [show expNotation (10 ^ 21) = "1e+21" from by decide]
  rfl

set_option maxRecDepth 4000 in
/-- C10. The claim fails on the program: JS `toFixed(2)` abandons fixed
notation at magnitude `10 ^ 21` and `parseFloat` saturates to `Infinity`
beyond the double range, so a single 22-digit carbs string makes
`computeTotals` return "1e+21g" (no two-decimal format), a 310-digit string
makes it return "Infinityg", and two strings overflowing with opposite
signs sum to `NaN`, making it return "NaNg". -/
theorem c10_two_decimal_totals_falsified :
    (computeTotals [⟨.strVal overTenPow21, .absent, .absent, .absent⟩]).carbs
      = "1e+21g" ∧
    ¬ gramFormatted (computeTotals
        [⟨.strVal overTenPow21, .absent, .absent, .absent⟩]).carbs ∧
    (computeTotals [⟨.strVal overDblMax, .absent, .absent, .absent⟩]).carbs
      = "Infinityg" ∧
    (computeTotals [⟨.strVal overDblMax, .absent, .absent, .absent⟩,
        ⟨.strVal overDblMaxNeg, .absent, .absent, .absent⟩]).carbs
      = "NaNg" := by
  have h1 : ¬ (dblOverflow ≤ ((10 ^ 21 : ℕ) : ℚ)) := by norm_num [dblOverflow]
  have h2 : ¬ (((10 ^ 21 : ℕ) : ℚ) ≤ -dblOverflow) := by norm_num [dblOverflow]
  have hacc21 : (accumTotals
      [⟨.strVal overTenPow21, .absent, .absent, .absent⟩]).carbs
      = JsNum.fin ((10 ^ 21 : ℕ) : ℚ) := by
    simp only [accumTotals, List.foldl_cons, List.foldl_nil, addFood,
      parseGrams_overTenPow21]
    show jsAdd (.fin 0) (.fin ((10 ^ 21 : ℕ) : ℚ)) = _
    simp only [jsAdd]
    rw [zero_add]
    unfold jsNumOfRat
    rw [if_neg h1, if_neg h2]
  have hout21 : (computeTotals
      [⟨.strVal overTenPow21, .absent, .absent, .absent⟩]).carbs
      = "1e+21g" := by
    show fmtGrams (accumTotals
      [⟨.strVal overTenPow21, .absent, .absent, .absent⟩]).carbs = _
    rw [hacc21]
    show jsToFixed2 (.fin ((10 ^ 21 : ℕ) : ℚ)) ++ "g" = _
    rw [jsToFixed2_tenPow21]
    rfl
  have haccInf : (accumTotals
      [⟨.strVal overDblMax, .absent, .absent, .absent⟩]).carbs
      = JsNum.inf false := by
    simp only [accumTotals, List.foldl_cons, List.foldl_nil, addFood,
      parseGrams_overDblMax]
    rfl
  have houtInf : (computeTotals
      [⟨.strVal overDblMax, .absent, .absent, .absent⟩]).carbs
      = "Infinityg" := by
    show fmtGrams (accumTotals
      [⟨.strVal overDblMax, .absent, .absent, .absent⟩]).carbs = _
    rw [haccInf]
    rfl
  have haccNan : (accumTotals
      [⟨.strVal overDblMax, .absent, .absent, .absent⟩,
       ⟨.strVal overDblMaxNeg, .absent, .absent, .absent⟩]).carbs
      = JsNum.nan := by
    simp only [accumTotals, List.foldl_cons, List.foldl_nil, addFood,
      parseGrams_overDblMax, parseGrams_overDblMaxNeg]
    rfl
  have houtNan : (computeTotals
      [⟨.strVal overDblMax, .absent, .absent, .absent⟩,
       ⟨.strVal overDblMaxNeg, .absent, .absent, .absent⟩]).carbs
      = "NaNg" := by
    show fmtGrams (accumTotals
      [⟨.strVal overDblMax, .absent, .absent, .absent⟩,
       ⟨.strVal overDblMaxNeg, .absent, .absent, .absent⟩]).carbs = _
    rw [haccNan]
    rfl
  refine ⟨hout21, ?_, houtInf, houtNan⟩
  rw [hout21]
  rintro ⟨pre, d₁, d₂, heq, -, -⟩
  have hmem : '.' ∈ "1e+21g".data := by
    rw [heq]
    simp [String.data_append]
  exact absurd hmem (by decide)

/-- C10 (amended). Nutrient totalling is total: `parseGrams` maps any
unparsable value to 0 and never yields `NaN` for a single field, and every
total that accumulates to a finite value of magnitude below `10 ^ 21` —
the whole fixed-notation range of `toFixed(2)` — is rendered by
`computeTotals` with a dot, exactly two fractional digits, and the `g`
suffix. -/
theorem c10_totals_total_and_formatted :
    (∀ s, parseFloatClean (cleanChars s.data) = none →
        parseGrams (.strVal s) = .fin 0) ∧
    (∀ v, parseGrams v ≠ .nan) ∧
    (∀ q : ℚ, |q| < 10 ^ 21 → gramFormatted (fmtGrams (.fin q))) ∧
    (∀ foods q, (accumTotals foods).carbs = .fin q → |q| < 10 ^ 21 →
        gramFormatted (computeTotals foods).carbs) ∧
    (∀ foods q, (accumTotals foods).fat = .fin q → |q| < 10 ^ 21 →
        gramFormatted (computeTotals foods).fat) ∧
    (∀ foods q, (accumTotals foods).fiber = .fin q → |q| < 10 ^ 21 →
        gramFormatted (computeTotals foods).fiber) ∧
    (∀ foods q, (accumTotals foods).protein = .fin q → |q| < 10 ^ 21 →
        gramFormatted (computeTotals foods).protein) := by
  refine ⟨?_, parseGrams_ne_nan, fmtGrams_fin_formatted, ?_, ?_, ?_, ?_⟩
  · intro s h
    by_cases hs : s = ""
    · simp [parseGrams, hs]
    · simp [parseGrams, hs, h]
  · intro foods q hq hlt
    show gramFormatted (fmtGrams (accumTotals foods).carbs)
    rw [hq]
    exact fmtGrams_fin_formatted q hlt
  · intro foods q hq hlt
    show gramFormatted (fmtGrams (accumTotals foods).fat)
    rw [hq]
    exact fmtGrams_fin_formatted q hlt
  · intro foods q hq hlt
    show gramFormatted (fmtGrams (accumTotals foods).fiber)
    rw [hq]
    exact fmtGrams_fin_formatted q hlt
  · intro foods q hq hlt
    show gramFormatted (fmtGrams (accumTotals foods).protein)
    rw [hq]
    exact fmtGrams_fin_formatted q hlt

/-- C10 witness: the amended theorem applied to the unparsable string "abc"
and to a concrete foods list whose carbs total is 0. -/
theorem c10_totals_total_and_formatted_witness :
    parseGrams (.strVal "abc") = .fin 0 ∧
    gramFormatted (computeTotals
        [⟨.absent, .absent, .absent, .absent⟩]).carbs := by
  constructor
  · exact c10_totals_total_and_formatted.1 "abc" rfl
  · apply c10_totals_total_and_formatted.2.2.2.1
      [⟨.absent, .absent, .absent, .absent⟩] 0
    · show jsAdd (.fin 0) (parseGrams .absent) = _
      show jsNumOfRat (0 + 0) = _
      rw [zero_add]
      unfold jsNumOfRat
      rw [if_neg (by norm_num [dblOverflow]), if_neg (by norm_num [dblOverflow])]
    · norm_num
